import Mathlib

/-!
Verification development for the realtime connection manager of the
`ai-assistance-fe` repository (`src/services/api.ts`, class `WebSocketService`).

The development shallow-embeds:
* the JSON values and the `JSON.parse` / `JSON.stringify` operations the
  service uses on the wire (a recursive-descent parser over the character
  list of the frame; unicode escapes and fractional/exponent number forms
  are not modelled — no frame in this development uses them);
* the mutable fields of the `WebSocketService` singleton as a state record;
* each handler and public method of the service as a function from state to
  state paired with the list of observable effects (frames sent, events
  emitted, timers scheduled);
* the Node.js `EventEmitter.emit` dispatch the service inherits.
-/

/-- JSON values, as produced by `JSON.parse`.  Numbers are modelled as
integers: no frame handled in this development carries a fractional or
exponent-form number. -/
inductive Json where
  | null : Json
  | bool (b : Bool) : Json
  | num (n : Int) : Json
  | str (s : String) : Json
  | arr (xs : List Json) : Json
  | obj (kvs : List (String × Json)) : Json

/-- The opening brace character. -/
def lbrace : Char := Char.ofNat 123

/-- The closing brace character. -/
def rbrace : Char := Char.ofNat 125

/-- JSON escaping of a single character inside a string literal, as done by
`JSON.stringify`. -/
def jsonEscape (c : Char) : List Char :=
  if c = '"' then ['\\', '"']
  else if c = '\\' then ['\\', '\\']
  else if c = '\n' then ['\\', 'n']
  else if c = '\t' then ['\\', 't']
  else if c = '\r' then ['\\', 'r']
  else [c]

/-- The characters of a JSON string literal, quotes included. -/
def stringifyStr (s : String) : List Char :=
  '"' :: (s.data.map jsonEscape).flatten ++ ['"']

mutual

/-- Model of `JSON.stringify`, producing the character list of the compact
serialization (no added whitespace, which is what the JS default produces). -/
def stringifyJson : Json → List Char
  | Json.null => ['n', 'u', 'l', 'l']
  | Json.bool true => ['t', 'r', 'u', 'e']
  | Json.bool false => ['f', 'a', 'l', 's', 'e']
  | Json.num n => (toString n).data
  | Json.str s => stringifyStr s
  | Json.arr xs => '[' :: stringifyArr xs ++ [']']
  | Json.obj kvs => lbrace :: stringifyObj kvs ++ [rbrace]

/-- Comma-separated serialization of array elements. -/
def stringifyArr : List Json → List Char
  | [] => []
  | [x] => stringifyJson x
  | x :: y :: xs => stringifyJson x ++ ',' :: stringifyArr (y :: xs)

/-- Comma-separated serialization of object fields. -/
def stringifyObj : List (String × Json) → List Char
  | [] => []
  | [(k, v)] => stringifyStr k ++ ':' :: stringifyJson v
  | (k, v) :: kv :: kvs =>
      stringifyStr k ++ ':' :: stringifyJson v ++ ',' :: stringifyObj (kv :: kvs)

end

/-- `JSON.stringify` as a function on strings. -/
def jsonStringify (j : Json) : String := String.mk (stringifyJson j)

/-- Drop leading JSON whitespace. -/
def skipWs : List Char → List Char
  | [] => []
  | c :: cs => if c = ' ' ∨ c = '\n' ∨ c = '\t' ∨ c = '\r' then skipWs cs else c :: cs

/-- Parse the body of a JSON string literal (the opening quote already
consumed), returning the decoded characters and the remaining input. -/
def parseStrChars : List Char → Option (List Char × List Char)
  | [] => none
  | '"' :: rest => some ([], rest)
  | '\\' :: c :: rest =>
      let esc : Option Char :=
        if c = '"' then some '"'
        else if c = '\\' then some '\\'
        else if c = '/' then some '/'
        else if c = 'n' then some '\n'
        else if c = 't' then some '\t'
        else if c = 'r' then some '\r'
        else none
      match esc with
      | none => none
      | some e =>
          match parseStrChars rest with
          | none => none
          | some (cs, rem) => some (e :: cs, rem)
  | c :: rest =>
      if c = '\\' then none
      else
        match parseStrChars rest with
        | none => none
        | some (cs, rem) => some (c :: cs, rem)

/-- Decimal digits to a natural number. -/
def digitsToNat (ds : List Char) : Nat :=
  List.foldl (fun n c => n * 10 + (c.toNat - 48)) 0 ds

/-- Parse an unsigned integer literal. -/
def parsePosNum (cs : List Char) : Option (Nat × List Char) :=
  let ds := cs.takeWhile Char.isDigit
  if ds = [] then none else some (digitsToNat ds, cs.dropWhile Char.isDigit)

/-- Parse a JSON integer literal (optional leading minus). -/
def parseNum : List Char → Option (Int × List Char)
  | '-' :: rest => (parsePosNum rest).map (fun p => (-(p.1 : Int), p.2))
  | cs => (parsePosNum cs).map (fun p => ((p.1 : Int), p.2))

mutual

/-- Recursive-descent model of `JSON.parse`: parse one JSON value.  The
fuel argument bounds the nesting depth; `jsonParse` supplies enough fuel
for any input. -/
def parseVal : Nat → List Char → Option (Json × List Char)
  | 0, _ => none
  | f + 1, cs =>
      match skipWs cs with
      | [] => none
      | c :: rest =>
          if c = '"' then
            match parseStrChars rest with
            | none => none
            | some (s, rem) => some (Json.str (String.mk s), rem)
          else if c = '[' then parseArrBody f rest
          else if c = lbrace then parseObjBody f rest
          else if c = 't' then
            if List.isPrefixOf ['r', 'u', 'e'] rest then
              some (Json.bool true, rest.drop 3)
            else none
          else if c = 'f' then
            if List.isPrefixOf ['a', 'l', 's', 'e'] rest then
              some (Json.bool false, rest.drop 4)
            else none
          else if c = 'n' then
            if List.isPrefixOf ['u', 'l', 'l'] rest then
              some (Json.null, rest.drop 3)
            else none
          else (parseNum (c :: rest)).map (fun p => (Json.num p.1, p.2))

/-- Parse the remainder of an array after `[`. -/
def parseArrBody : Nat → List Char → Option (Json × List Char)
  | 0, _ => none
  | f + 1, cs =>
      match skipWs cs with
      | ']' :: rest => some (Json.arr [], rest)
      | cs2 =>
          match parseVal f cs2 with
          | none => none
          | some (j, rem) =>
              match parseArrRest f rem with
              | none => none
              | some (js, rem2) => some (Json.arr (j :: js), rem2)

/-- Parse `, value`* `]` after the first array element. -/
def parseArrRest : Nat → List Char → Option (List Json × List Char)
  | 0, _ => none
  | f + 1, cs =>
      match skipWs cs with
      | ']' :: rest => some ([], rest)
      | ',' :: rest =>
          match parseVal f rest with
          | none => none
          | some (j, rem) =>
              match parseArrRest f rem with
              | none => none
              | some (js, rem2) => some (j :: js, rem2)
      | _ => none

/-- Parse one `"key": value` object field. -/
def parseObjField : Nat → List Char → Option ((String × Json) × List Char)
  | 0, _ => none
  | f + 1, cs =>
      match skipWs cs with
      | '"' :: rest =>
          match parseStrChars rest with
          | none => none
          | some (k, rem) =>
              match skipWs rem with
              | ':' :: rem2 =>
                  match parseVal f rem2 with
                  | none => none
                  | some (v, rem3) => some ((String.mk k, v), rem3)
              | _ => none
      | _ => none

/-- Parse the remainder of an object after the opening brace. -/
def parseObjBody : Nat → List Char → Option (Json × List Char)
  | 0, _ => none
  | f + 1, cs =>
      match skipWs cs with
      | [] => none
      | c :: rest =>
          if c = rbrace then some (Json.obj [], rest)
          else
            match parseObjField f (c :: rest) with
            | none => none
            | some (kv, rem) =>
                match parseObjRest f rem with
                | none => none
                | some (kvs, rem2) => some (Json.obj (kv :: kvs), rem2)

/-- Parse `, "key": value`* and the closing brace after the first field. -/
def parseObjRest : Nat → List Char → Option (List (String × Json) × List Char)
  | 0, _ => none
  | f + 1, cs =>
      match skipWs cs with
      | [] => none
      | c :: rest =>
          if c = rbrace then some ([], rest)
          else if c = ',' then
            match parseObjField f rest with
            | none => none
            | some (kv, rem) =>
                match parseObjRest f rem with
                | none => none
                | some (kvs, rem2) => some (kv :: kvs, rem2)
          else none

end

/-- Model of `JSON.parse` on a character list: `none` models a thrown
`SyntaxError` (the whole input must be consumed). -/
def jsonParseChars (cs : List Char) : Option Json :=
  match parseVal (cs.length + 1) cs with
  | none => none
  | some (j, rest) => if skipWs rest = [] then some j else none

/-- Model of `JSON.parse` on strings. -/
def jsonParse (s : String) : Option Json := jsonParseChars s.data

/-- Model of the JavaScript two-element array destructuring
`const [eventName, data] = v` (api.ts line 133): arrays yield their first
two elements (`undefined`, modelled as `none`, fills missing positions);
strings are iterable and yield their first two characters as one-character
strings; every other value raises a `TypeError`, modelled as `none`. -/
def destructure2 : Json → Option (Option Json × Option Json)
  | Json.arr xs => some (xs.get? 0, xs.get? 1)
  | Json.str s =>
      some ((s.data.get? 0).map (fun c => Json.str (String.mk [c])),
            (s.data.get? 1).map (fun c => Json.str (String.mk [c])))
  | _ => none

/-- Readiness of the underlying `WebSocket` handle (the DOM `readyState`).
`opened` is the `WebSocket.OPEN` state. -/
inductive ReadyState where
  | connecting : ReadyState
  | opened : ReadyState
  | closing : ReadyState
  | closed : ReadyState
deriving DecidableEq

/-- The mutable fields of the `WebSocketService` singleton
(api.ts lines 66-74).  `ws` is `none` when the `this.ws` field is null and
otherwise carries the readyState of the socket it points to.
`reconnectTimeout` models the `this.reconnectTimeout` field: `some delay`
whenever the field holds a (possibly already fired) timer handle.
`timerArmed` is true while a scheduled reconnect timer has neither fired
nor been cancelled; it is bookkeeping about the runtime timer queue, not a
field of the class. -/
structure WSState where
  ws : Option ReadyState
  isConnected : Bool
  reconnectTimeout : Option Nat
  timerArmed : Bool
  isConnecting : Bool
  reconnectAttempts : Nat
deriving DecidableEq

/-- Field initializers of the class (api.ts lines 68-74): no socket, not
connected, no timer, zero attempts. -/
def initState : WSState :=
  { ws := none, isConnected := false, reconnectTimeout := none,
    timerArmed := false, isConnecting := false, reconnectAttempts := 0 }

/-- `private maxReconnectAttempts = 5` (api.ts line 73); never mutated. -/
def maxReconnectAttempts : Nat := 5

/-- Example state: the service is currently opening a socket. -/
def connectingState : WSState :=
  { ws := some ReadyState.connecting, isConnected := false, reconnectTimeout := none,
    timerArmed := false, isConnecting := true, reconnectAttempts := 0 }

/-- Example state: disconnected with the reconnect-attempt budget used up. -/
def exhaustedState : WSState :=
  { ws := none, isConnected := false, reconnectTimeout := none,
    timerArmed := false, isConnecting := false, reconnectAttempts := 5 }

/-- Example state: connected again while a reconnect timer is still pending. -/
def timerPendingState : WSState :=
  { ws := some ReadyState.opened, isConnected := true, reconnectTimeout := some 2000,
    timerArmed := true, isConnecting := false, reconnectAttempts := 1 }

/-- Observable effects of a service operation: frames written to the
socket, events emitted on the service (an `EventEmitter`), and reconnect
timers handed to `setTimeout`. -/
inductive Effect where
  | send (frame : String) : Effect
  | emitConnected : Effect
  | emitDisconnected (code : Nat) (reason : String) : Effect
  | emitError (msg : String) : Effect
  | emitMessage (payload : Option Json) : Effect
  | setTimer (delay : Nat) : Effect

/-- `scheduleReconnect` (api.ts lines 205-216): if no timer handle is
stored, the service is not connecting and the attempt budget is not
exhausted, increment `reconnectAttempts`, compute
`min(1000 * 2 ^ reconnectAttempts, 30000)` and schedule a reconnect timer
with that delay, storing its handle; otherwise do nothing. -/
def scheduleReconnect (s : WSState) : WSState × List Effect :=
  if s.reconnectTimeout = none ∧ s.isConnecting = false ∧
      s.reconnectAttempts < maxReconnectAttempts then
    let attempts := s.reconnectAttempts + 1
    let delay := min (1000 * 2 ^ attempts) 30000
    ({ s with reconnectAttempts := attempts, reconnectTimeout := some delay,
              timerArmed := true },
     [Effect.setTimer delay])
  else (s, [])

/-- `connect` (api.ts lines 87-103): return immediately if already
connecting or the socket is `OPEN`; emit the terminal error and return if
the attempt budget is exhausted; otherwise construct a new socket (the
constructor is assumed to succeed — the catch branch of lines 192-202 is
not exercised in this development) and mark the service connecting. -/
def connect (s : WSState) : WSState × List Effect :=
  if s.isConnecting = true ∨ s.ws = some ReadyState.opened then (s, [])
  else if maxReconnectAttempts ≤ s.reconnectAttempts then
    (s, [Effect.emitError "Max reconnection attempts reached"])
  else
    ({ s with isConnecting := true, ws := some ReadyState.connecting }, [])

/-- The `ws.onopen` handler (api.ts lines 107-119): the socket transitions
to `OPEN`; mark connected, clear `isConnecting`, reset the attempt counter,
send the session-open frame `"40"` (via `this.ws?.send`), emit
`connected`, and clear any stored reconnect timer handle (cancelling the
timer). -/
def onopen (s : WSState) : WSState × List Effect :=
  let s1 := { s with ws := s.ws.map (fun _ => ReadyState.opened),
                     isConnected := true, isConnecting := false,
                     reconnectAttempts := 0 }
  let sendEffs := if s1.ws.isSome then [Effect.send "40"] else []
  let s2 :=
    if s1.reconnectTimeout.isSome then
      { s1 with reconnectTimeout := none, timerArmed := false }
    else s1
  (s2, sendEffs ++ [Effect.emitConnected])

/-- The `ws.onmessage` handler (api.ts lines 121-146): answer the ping
marker `"2"` with the pong marker `"3"`; for frames with the `"42"`
application prefix, `JSON.parse` the remainder and destructure it into
`[eventName, data]` — a parse or destructuring exception is caught and
surfaced as the typed error event; when the event name is the string
`"status_update"`, emit the payload as a `message` event; every other
frame is ignored. -/
def msgEffects (raw : String) (s : WSState) : List Effect :=
  if raw = "2" then
    if s.ws.isSome then [Effect.send "3"] else []
  else if List.isPrefixOf ['4', '2'] raw.data then
    match jsonParseChars (raw.data.drop 2) with
    | none => [Effect.emitError "Failed to parse WebSocket message"]
    | some j =>
        match destructure2 j with
        | none => [Effect.emitError "Failed to parse WebSocket message"]
        | some (ev, data) =>
            match ev with
            | some (Json.str n) =>
                if n = "status_update" then [Effect.emitMessage data]
                else []
            | _ => []
  else []

/-- The handler writes no field of the service: its whole observable
behaviour is the effects of `msgEffects`. -/
def onmessage (raw : String) (s : WSState) : WSState × List Effect :=
  (s, msgEffects raw s)

/-- The `ws.onerror` handler (api.ts lines 148-173): emit the typed error,
clear the connected/connecting flags, and close the socket if it is still
`OPEN`. -/
def onerror (s : WSState) : WSState × List Effect :=
  let s1 := { s with isConnected := false, isConnecting := false }
  let s2 :=
    if s1.ws = some ReadyState.opened then { s1 with ws := some ReadyState.closing }
    else s1
  (s2, [Effect.emitError "WebSocket error occurred"])

/-- The `ws.onclose` handler (api.ts lines 175-191): the socket is now
closed; clear the connected/connecting flags, emit `disconnected` with the
close code and reason, and call `scheduleReconnect` exactly when the close
code differs from 1000. -/
def onclose (code : Nat) (reason : String) (s : WSState) : WSState × List Effect :=
  let s1 := { s with ws := s.ws.map (fun _ => ReadyState.closed),
                     isConnected := false, isConnecting := false }
  let r := if code ≠ 1000 then scheduleReconnect s1 else (s1, [])
  (r.1, Effect.emitDisconnected code reason :: r.2)

/-- The callback passed to `setTimeout` by `scheduleReconnect`
(api.ts lines 211-214): when the armed timer fires it only calls
`connect()`; it does not null the stored `this.reconnectTimeout` handle. -/
def timerFire (s : WSState) : WSState × List Effect :=
  if s.timerArmed then connect { s with timerArmed := false } else (s, [])

/-- The frame `joinRoom` writes to the socket (api.ts lines 221-224):
`JSON.stringify({type: '42', data: ['join', {room_id: roomId}]})`. -/
def joinFrameJson (roomId : String) : Json :=
  Json.obj [("type", Json.str "42"),
            ("data", Json.arr [Json.str "join",
                               Json.obj [("room_id", Json.str roomId)]])]

/-- The join frame as the string actually sent. -/
def joinFrameString (roomId : String) : String := jsonStringify (joinFrameJson roomId)

/-- `joinRoom` (api.ts lines 218-234): when the socket exists and is
`OPEN`, send the join frame; otherwise do nothing at all.  (`send` on an
`OPEN` socket does not throw, so the catch branch of lines 225-232 is
unreachable here.) -/
def joinRoom (roomId : String) (s : WSState) : WSState × List Effect :=
  if s.ws = some ReadyState.opened then
    (s, [Effect.send (joinFrameString roomId)])
  else (s, [])

/-- `disconnect` (api.ts lines 240-257): if a socket exists, send the
session-close frame `JSON.stringify({type: '41'})`, close the socket and
null the field; clear any stored reconnect timer handle (cancelling the
timer); reset the connected/connecting flags and the attempt counter. -/
def disconnect (s : WSState) : WSState × List Effect :=
  let effs :=
    if s.ws.isSome then
      [Effect.send (jsonStringify (Json.obj [("type", Json.str "41")]))]
    else []
  let s1 := if s.ws.isSome then { s with ws := none } else s
  let s2 :=
    if s1.reconnectTimeout.isSome then
      { s1 with reconnectTimeout := none, timerArmed := false }
    else s1
  ({ s2 with isConnected := false, isConnecting := false, reconnectAttempts := 0 },
   effs)

/-- The external stimuli the service reacts to: its public methods, the
four socket callbacks, and the reconnect timer firing. -/
inductive Ev where
  | connectCall : Ev
  | openEv : Ev
  | errorEv : Ev
  | closeEv (code : Nat) (reason : String) : Ev
  | messageEv (raw : String) : Ev
  | timerEv : Ev
  | disconnectCall : Ev
  | joinRoomCall (roomId : String) : Ev

/-- One step of the service: dispatch a stimulus to its handler. -/
def step (s : WSState) : Ev → WSState × List Effect
  | Ev.connectCall => connect s
  | Ev.openEv => onopen s
  | Ev.errorEv => onerror s
  | Ev.closeEv code reason => onclose code reason s
  | Ev.messageEv raw => onmessage raw s
  | Ev.timerEv => timerFire s
  | Ev.disconnectCall => disconnect s
  | Ev.joinRoomCall roomId => joinRoom roomId s

/-- Run a sequence of stimuli, accumulating the emitted effects. -/
def run (s : WSState) : List Ev → WSState × List Effect
  | [] => (s, [])
  | e :: es =>
      ((run (step s e).1 es).1, (step s e).2 ++ (run (step s e).1 es).2)

/-- A subscriber callback registered for one event category of the fan-out,
abstracted by an identity and by whether invoking it throws. -/
structure Listener where
  id : Nat
  throws : Bool

/-- Model of Node.js `EventEmitter.emit`, the fan-out `WebSocketService`
inherits (api.ts line 66): the listeners registered for the emitted
category are called synchronously in registration order; an exception
thrown by a listener propagates out of `emit` at once, skipping the
remaining listeners.  Returns the ids of the invoked listeners in call
order, paired with whether the emission ended in a propagated exception. -/
def emitRun : List Listener → List Nat × Bool
  | [] => ([], false)
  | l :: ls =>
      if l.throws then ([l.id], true)
      else (l.id :: (emitRun ls).1, (emitRun ls).2)

/-- Claim C1, counterexample: joining room `"job-42"` while Disconnected
and then connecting sends only the session-open frame `"40"`; no join
frame for `"job-42"` is ever sent, so the deferred join is lost, not
replayed. -/
theorem c1_counterexample :
    (run initState [Ev.joinRoomCall "job-42", Ev.connectCall, Ev.openEv]).2 =
      [Effect.send "40", Effect.emitConnected] ∧
    Effect.send (joinFrameString "job-42") ∉
      (run initState [Ev.joinRoomCall "job-42", Ev.connectCall, Ev.openEv]).2 := by
  refine ⟨rfl, ?_⟩
  have he : (run initState [Ev.joinRoomCall "job-42", Ev.connectCall, Ev.openEv]).2 =
      [Effect.send "40", Effect.emitConnected] := rfl
  rw [he]
  have h40 : joinFrameString "job-42" ≠ "40" := by decide
  simp [h40]

/-- Claim C1, amended: every `joinRoom` call made while the manager is
Disconnected is a complete no-op (the service keeps no room registry), and
the transition into Connected sends only the session-open frame `"40"`
followed by the `connected` event — no join frames are replayed. -/
theorem c1_amended (rooms : List String) :
    run initState (rooms.map Ev.joinRoomCall ++ [Ev.connectCall, Ev.openEv]) =
      ({ ws := some ReadyState.opened, isConnected := true,
         reconnectTimeout := none, timerArmed := false, isConnecting := false,
         reconnectAttempts := 0 },
       [Effect.send "40", Effect.emitConnected]) := by
  induction rooms with
  | nil => rfl
  | cons r rs ih =>
      have hstep : step initState (Ev.joinRoomCall r) = (initState, []) := rfl
      simp only [List.map_cons, List.cons_append, run, hstep, List.nil_append]
      rw [Prod.mk.eta]
      exact ih

/-- Claim C2: the frame encoder used by `joinRoom` does not produce the
prefixed-JSON-array format the inbound decoder recognizes — the encoded
join frame lacks the `"42"` prefix, and feeding it back to the message
handler yields no event at all instead of the original
`("join", {room_id})` pair. -/
theorem c2_roundtrip_fails :
    List.isPrefixOf ['4', '2'] (joinFrameString "job-42").data = false ∧
    onmessage (joinFrameString "job-42") initState = (initState, []) :=
  ⟨rfl, rfl⟩

/-- Claim C3: after an abnormal closure, one retry is scheduled (attempt 1,
delay 2000 ms); when that retry fires and the connection fails abnormally
again, no second retry is scheduled — the fired timer handle is never
cleared, so `scheduleReconnect` refuses forever, the attempt counter
sticks at 1 and the terminal `Max reconnection attempts reached` error is
never emitted. -/
theorem c3_retry_stalls :
    (run initState [Ev.connectCall, Ev.errorEv, Ev.closeEv 1006 "", Ev.timerEv,
        Ev.errorEv, Ev.closeEv 1006 ""]).2 =
      [Effect.emitError "WebSocket error occurred",
       Effect.emitDisconnected 1006 "", Effect.setTimer 2000,
       Effect.emitError "WebSocket error occurred",
       Effect.emitDisconnected 1006 ""] ∧
    (run initState [Ev.connectCall, Ev.errorEv, Ev.closeEv 1006 "", Ev.timerEv,
        Ev.errorEv, Ev.closeEv 1006 ""]).1.reconnectAttempts = 1 ∧
    (run initState [Ev.connectCall, Ev.errorEv, Ev.closeEv 1006 "", Ev.timerEv,
        Ev.errorEv, Ev.closeEv 1006 ""]).1.timerArmed = false ∧
    (run initState [Ev.connectCall, Ev.errorEv, Ev.closeEv 1006 "", Ev.timerEv,
        Ev.errorEv, Ev.closeEv 1006 ""]).1.reconnectTimeout = some 2000 ∧
    Effect.emitError "Max reconnection attempts reached" ∉
      (run initState [Ev.connectCall, Ev.errorEv, Ev.closeEv 1006 "", Ev.timerEv,
        Ev.errorEv, Ev.closeEv 1006 ""]).2 := by
  refine ⟨rfl, rfl, rfl, rfl, ?_⟩
  have he : (run initState [Ev.connectCall, Ev.errorEv, Ev.closeEv 1006 "", Ev.timerEv,
      Ev.errorEv, Ev.closeEv 1006 ""]).2 =
    [Effect.emitError "WebSocket error occurred",
     Effect.emitDisconnected 1006 "", Effect.setTimer 2000,
     Effect.emitError "WebSocket error occurred",
     Effect.emitDisconnected 1006 ""] := rfl
  rw [he]
  have h1 : "Max reconnection attempts reached" ≠ "WebSocket error occurred" := by decide
  simp [h1]

/-- Claim C4, counterexample: from a fresh connection attempt, an abnormal
closure with code 1006 emits the `disconnected` event and schedules the
first retry with a delay of 2000 ms, not approximately 1000 ms. -/
theorem c4_counterexample :
    (run initState [Ev.connectCall, Ev.closeEv 1006 "gone"]).2 =
      [Effect.emitDisconnected 1006 "gone", Effect.setTimer 2000] ∧
    Effect.setTimer 1000 ∉ (run initState [Ev.connectCall, Ev.closeEv 1006 "gone"]).2 := by
  refine ⟨rfl, ?_⟩
  have he : (run initState [Ev.connectCall, Ev.closeEv 1006 "gone"]).2 =
      [Effect.emitDisconnected 1006 "gone", Effect.setTimer 2000] := rfl
  rw [he]
  simp

/-- Claim C4, amended: when the transport closes abnormally (code ≠ 1000)
with no stored timer handle and a zero attempt counter, a `disconnected`
event carrying the close code and reason fires and the first retry is
scheduled with delay 2000 ms = min(2^1 · 1000 ms, 30000 ms); a normal
closure (code 1000) emits `disconnected` without scheduling anything. -/
theorem c4_amended (s : WSState) (code : Nat) (reason : String)
    (h1 : s.reconnectTimeout = none) (h2 : s.reconnectAttempts = 0)
    (h3 : code ≠ 1000) :
    (onclose code reason s).2 =
      [Effect.emitDisconnected code reason, Effect.setTimer 2000] ∧
    (onclose code reason s).1.timerArmed = true ∧
    (onclose 1000 reason s).2 = [Effect.emitDisconnected 1000 reason] ∧
    (onclose 1000 reason s).1.reconnectTimeout = s.reconnectTimeout ∧
    (onclose 1000 reason s).1.timerArmed = s.timerArmed := by
  unfold onclose scheduleReconnect
  simp [h1, h2, h3, maxReconnectAttempts]

/-- Witness for `c4_amended` at a concrete state and close code. -/
theorem c4_witness :
    (onclose 1006 "r" initState).2 =
      [Effect.emitDisconnected 1006 "r", Effect.setTimer 2000] ∧
    (onclose 1006 "r" initState).1.timerArmed = true ∧
    (onclose 1000 "r" initState).2 = [Effect.emitDisconnected 1000 "r"] ∧
    (onclose 1000 "r" initState).1.reconnectTimeout = initState.reconnectTimeout ∧
    (onclose 1000 "r" initState).1.timerArmed = initState.timerArmed :=
  c4_amended initState 1006 "r" rfl rfl (by decide)

/-- Claim C5, counterexample: `disconnect()` at a connected state with a
pending reconnect timer leaves exactly the initial state (timer cancelled,
counter reset to 0); the close event it provokes — delivered with the
no-status code 1005, the standard delivery for a client `close()` called
without a code — then makes `ws.onclose` schedule a reconnect with delay
2000 ms, so an intentional `disconnect()` does lead to a scheduled
reconnect. -/
theorem c5_counterexample :
    (disconnect timerPendingState).1 = initState ∧
    (onclose 1005 "" (disconnect timerPendingState).1).2 =
      [Effect.emitDisconnected 1005 "", Effect.setTimer 2000] ∧
    (onclose 1005 "" (disconnect timerPendingState).1).1.timerArmed = true :=
  ⟨rfl, rfl, rfl⟩

/-- Claim C5, amended: `disconnect()` cancels any pending reconnect timer
at the time of the call and schedules nothing itself, and a subsequent
close event with the normal-closure code 1000 schedules nothing; but for
every other delivered close code — including 1005/1006, with which the
close provoked by the code's argumentless `ws.close()` arrives in the
standard environment — `ws.onclose` does schedule a reconnect, with delay
2000 ms since `disconnect()` reset the attempt counter. -/
theorem c5_amended (s : WSState) (reason : String) (code : Nat)
    (hinv : s.reconnectTimeout = none → s.timerArmed = false)
    (hc : code ≠ 1000) :
    (disconnect s).1.reconnectTimeout = none ∧
    (disconnect s).1.timerArmed = false ∧
    (∀ d, Effect.setTimer d ∉ (disconnect s).2) ∧
    (∀ d, Effect.setTimer d ∉ (onclose 1000 reason (disconnect s).1).2) ∧
    (onclose code reason (disconnect s).1).2 =
      [Effect.emitDisconnected code reason, Effect.setTimer 2000] ∧
    (onclose code reason (disconnect s).1).1.timerArmed = true := by
  rcases hws : s.ws with _ | w <;> rcases hto : s.reconnectTimeout with _ | d
  · simp [disconnect, onclose, scheduleReconnect, maxReconnectAttempts, hws, hto,
      hinv hto, hc]
  · simp [disconnect, onclose, scheduleReconnect, maxReconnectAttempts, hws, hto, hc]
  · simp [disconnect, onclose, scheduleReconnect, maxReconnectAttempts, hws, hto,
      hinv hto, hc]
  · simp [disconnect, onclose, scheduleReconnect, maxReconnectAttempts, hws, hto, hc]

/-- Claim C6, counterexample: after one abnormal closure the attempt
counter is 1; calling `disconnect()` resets it to 0 even though the
machine is not transitioning into Connected — an operation other than the
transition into Connected resets the counter. -/
theorem c6_counterexample :
    (run initState [Ev.connectCall, Ev.closeEv 1006 ""]).1.reconnectAttempts = 1 ∧
    (disconnect (run initState [Ev.connectCall, Ev.closeEv 1006 ""]).1).1.reconnectAttempts = 0 ∧
    (disconnect (run initState [Ev.connectCall, Ev.closeEv 1006 ""]).1).1.isConnected = false :=
  ⟨rfl, rfl, rfl⟩

/-- Claim C6, amended: in every step of the service, the reconnect counter
either stays unchanged, or increases by one leaving the machine
disconnected (abnormal-close handling), or is reset to 0 — and a reset
happens only on the open event (the transition into Connected) or on an
explicit `disconnect()` call. -/
theorem c6_amended (s : WSState) (e : Ev) :
    (step s e).1.reconnectAttempts = s.reconnectAttempts ∨
    ((step s e).1.reconnectAttempts = s.reconnectAttempts + 1 ∧
      (step s e).1.isConnected = false ∧ (step s e).1.isConnecting = false) ∨
    ((step s e).1.reconnectAttempts = 0 ∧
      (e = Ev.openEv ∨ e = Ev.disconnectCall)) := by
  cases e with
  | connectCall =>
      left
      show (connect s).1.reconnectAttempts = s.reconnectAttempts
      unfold connect
      split_ifs <;> rfl
  | openEv =>
      right; right
      refine ⟨?_, Or.inl rfl⟩
      show (onopen s).1.reconnectAttempts = 0
      simp only [onopen]
      split_ifs <;> rfl
  | errorEv =>
      left
      show (onerror s).1.reconnectAttempts = s.reconnectAttempts
      simp only [onerror]
      split_ifs <;> rfl
  | closeEv code reason =>
      simp only [step, onclose, scheduleReconnect]
      split_ifs with h1 h2
      · right; left
        exact ⟨rfl, rfl, rfl⟩
      · left; rfl
      · left; rfl
  | messageEv raw =>
      left
      rfl
  | timerEv =>
      left
      show (timerFire s).1.reconnectAttempts = s.reconnectAttempts
      unfold timerFire connect
      split_ifs <;> rfl
  | disconnectCall =>
      right; right
      refine ⟨?_, Or.inr rfl⟩
      show (disconnect s).1.reconnectAttempts = 0
      simp [disconnect]
  | joinRoomCall roomId =>
      left
      show (joinRoom roomId s).1.reconnectAttempts = s.reconnectAttempts
      unfold joinRoom
      split_ifs <;> rfl

/-- Witness for `c5_amended` at a connected state with a pending reconnect
timer and the no-status close code 1005. -/
theorem c5_witness :
    (disconnect timerPendingState).1.reconnectTimeout = none ∧
    (disconnect timerPendingState).1.timerArmed = false ∧
    (onclose 1005 "bye" (disconnect timerPendingState).1).2 =
      [Effect.emitDisconnected 1005 "bye", Effect.setTimer 2000] := by
  have h := c5_amended timerPendingState "bye" 1005 (by decide) (by decide)
  exact ⟨h.1, h.2.1, h.2.2.2.2.1⟩

/-- Claim C7: `connect()` is a no-op while already connecting or while the
socket is `OPEN`; otherwise, with the attempt budget exhausted, it emits
only the terminal error and returns with the state — in particular the
socket field and the attempt counter — unchanged. -/
theorem c7_connect_guard (s : WSState) :
    ((s.isConnecting = true ∨ s.ws = some ReadyState.opened) →
      connect s = (s, [])) ∧
    (s.isConnecting = false → s.ws ≠ some ReadyState.opened →
      maxReconnectAttempts ≤ s.reconnectAttempts →
      connect s = (s, [Effect.emitError "Max reconnection attempts reached"])) := by
  constructor
  · intro h
    unfold connect
    rw [if_pos]
    rcases h with h | h
    · exact Or.inl h
    · exact Or.inr h
  · intro h1 h2 h3
    unfold connect
    rw [if_neg, if_pos h3]
    rintro (h | h)
    · rw [h1] at h; cases h
    · exact h2 h

/-- Witness for `c7_connect_guard`: the no-op branch at a connecting state
and the terminal-error branch at an exhausted disconnected state. -/
theorem c7_witness :
    connect connectingState = (connectingState, []) ∧
    connect exhaustedState =
      (exhaustedState, [Effect.emitError "Max reconnection attempts reached"]) := by
  constructor
  · exact (c7_connect_guard connectingState).1 (Or.inl rfl)
  · exact (c7_connect_guard exhaustedState).2 rfl (by decide) (by decide)

/-- Claim C8, counterexample: the frame `42[]` carries valid JSON of the
wrong arity (an empty array instead of `[eventName, payload]`), yet the
handler emits nothing at all — the failure is not surfaced as a typed
protocol error event. -/
theorem c8_counterexample :
    jsonParse "[]" = some (Json.arr []) ∧
    onmessage "42[]" initState = (initState, []) :=
  ⟨rfl, rfl⟩

/-- Claim C8, amended: the message handler never throws across the layer
boundary and never touches the connection state — it changes no field,
closes nothing and schedules no reconnect — and a frame whose JSON fails
to parse is surfaced as the typed protocol error event; but wrong-arity
frames that still parse as JSON are not surfaced as errors (they are
silently dropped or mis-delivered with a missing payload). -/
theorem c8_amended (s : WSState) (raw : String) :
    (onmessage raw s).1 = s ∧
    (∀ d, Effect.setTimer d ∉ (onmessage raw s).2) ∧
    (∀ c r, Effect.emitDisconnected c r ∉ (onmessage raw s).2) ∧
    (¬ raw = "2" → List.isPrefixOf ['4', '2'] raw.data = true →
      jsonParseChars (raw.data.drop 2) = none →
      (onmessage raw s).2 = [Effect.emitError "Failed to parse WebSocket message"]) := by
  refine ⟨rfl, ?_, ?_, ?_⟩
  · intro d
    show Effect.setTimer d ∉ msgEffects raw s
    unfold msgEffects
    repeat' split
    all_goals simp
  · intro c r
    show Effect.emitDisconnected c r ∉ msgEffects raw s
    unfold msgEffects
    repeat' split
    all_goals simp
  · intro h1 h2 h3
    show msgEffects raw s = [Effect.emitError "Failed to parse WebSocket message"]
    unfold msgEffects
    rw [if_neg h1, if_pos h2, h3]

/-- Witness for `c8_amended` at the malformed frame `42x`. -/
theorem c8_witness :
    (onmessage "42x" initState).1 = initState ∧
    (onmessage "42x" initState).2 =
      [Effect.emitError "Failed to parse WebSocket message"] := by
  have h := c8_amended initState "42x"
  exact ⟨h.1, h.2.2.2 (by decide) (by decide) rfl⟩

/-- Claim C9, counterexample: with two registered callbacks of which the
first throws, the emission invokes only the first callback — the second
registered callback never runs and the exception propagates out of the
emitter — refuting the claimed isolation of callback invocations. -/
theorem c9_counterexample :
    emitRun [⟨1, true⟩, ⟨2, false⟩] = ([1], true) ∧
    (2 : Nat) ∉ (emitRun [⟨1, true⟩, ⟨2, false⟩]).1 := by
  refine ⟨rfl, ?_⟩
  have he : (emitRun [⟨1, true⟩, ⟨2, false⟩]).1 = [1] := rfl
  rw [he]
  simp

/-- Claim C9, amended: `emit` invokes callbacks synchronously in
registration order, but a throwing callback is not isolated: exactly the
callbacks up to and including the first throwing one are invoked, the rest
are skipped, and the exception propagates out of the emitter (the emission
ends exceptionally iff some registered callback throws). -/
theorem c9_amended (ls : List Listener) :
    (emitRun ls).1 =
      (ls.takeWhile (fun l => !l.throws)).map Listener.id ++
        ((ls.dropWhile (fun l => !l.throws)).head?.map Listener.id).toList ∧
    (emitRun ls).2 = ls.any (fun l => l.throws) := by
  induction ls with
  | nil => exact ⟨rfl, rfl⟩
  | cons l ls ih =>
      by_cases h : l.throws
      · simp [emitRun, h, List.takeWhile_cons, List.dropWhile_cons]
      · simp [emitRun, h, List.takeWhile_cons, List.dropWhile_cons, ih.1, ih.2]

/-- Claim C10: a `joinRoom` call made while the socket field is null or
the socket is not `OPEN` is a complete no-op: the state is returned
unchanged and no frame, event or timer is produced. -/
theorem c10_join_noop (s : WSState) (roomId : String)
    (h : s.ws ≠ some ReadyState.opened) :
    joinRoom roomId s = (s, []) := by
  unfold joinRoom
  rw [if_neg h]

/-- Witness for `c10_join_noop` at the initial (socketless) state. -/
theorem c10_witness : joinRoom "job-1" initState = (initState, []) :=
  c10_join_noop initState "job-1" (by decide)
